import Mathlib

/-
Verification development for the CleanWorld mini-compiler.

The Python sources (lexer.py, parser.py, cst.py, converter.py, symbols.py,
semantic.py, interpreter.py) are shallowly embedded below.  Pure functions
become Lean functions; the mutable interpreter state (Environment, GridWorld,
const-variable set) is threaded explicitly; Python exceptions become the
error side of an Except value.  Python integers are Lean Int; Python sets of
coordinate pairs are Finset (Int x Int).  Where Python would raise a
KeyError or IndexError while probing a malformed tree, the embedding returns
the same failure value (none / error) as the adjacent handled cases; every
theorem below applies the definitions only to well-formed trees where the
two cannot be told apart.
-/

namespace CleanWorld

/-- Runtime values of the interpreter: Python int, bool, str and None.
Literal nodes carry int, bool or string payloads; direction values are the
strings north, east, south, west; the value None appears when a missing
expression (Python None) is evaluated. -/
inductive Value where
  | int (n : Int)
  | bool (b : Bool)
  | str (s : String)
  | vnone
deriving DecidableEq, Repr

/-- Errors raised by the interpreter: RuntimeError with its message, and
TypeError for Python-level operator misuse (e.g. adding an int to a string),
which interpreter.main catches as an unexpected error. -/
inductive PyErr where
  | runtimeError (msg : String)
  | typeError
deriving DecidableEq, Repr

instance {ε α : Type} [DecidableEq ε] [DecidableEq α] :
    DecidableEq (Except ε α) := fun a b =>
  match a, b with
  | .ok x, .ok y =>
    if h : x = y then .isTrue (by rw [h]) else .isFalse (by simp [h])
  | .error x, .error y =>
    if h : x = y then .isTrue (by rw [h]) else .isFalse (by simp [h])
  | .ok _, .error _ => .isFalse (by simp)
  | .error _, .ok _ => .isFalse (by simp)

/-- Expression nodes of the AST produced by converter.py.  The constructor
enone stands for the Python value None, which the converter can store in an
expression slot (flatten_expression returns None on some inputs, and the
node for unary not carries right = None); Interpreter.evaluate_expr checks
for None explicitly and returns None for it. -/
inductive Expr where
  | literal (v : Value)
  | ident (name : String)
  | binary (op : String) (left : Expr) (right : Expr)
  | enone
deriving DecidableEq, Repr

mutual
/-- Statement nodes of the AST produced by converter.py.  A missing VarDecl
initializer is Expr.enone (Python None).  The alternate slot of an IfStmt is
Python None or a statement list; both None and the empty list are falsy in
every consumer (execute_if and the semantic resolution pass test
stmt.get with truthiness), so the embedding stores just a statement list,
with the empty list standing for an absent else part. -/
inductive Stmt where
  | varDecl (name : String) (varType : String) (init : Expr)
  | constDecl (name : String) (varType : String) (value : Expr)
  | assign (target : String) (value : Expr)
  | ifStmt (test : Expr) (consequent : StmtList) (alternate : StmtList)
  | whileStmt (test : Expr) (body : StmtList)
  | actionStmt (action : String)

/-- A Python list of statements.  Declared mutually with Stmt so that the
recursive walkers below are structurally recursive (and hence compute by
kernel reduction). -/
inductive StmtList where
  | nil
  | cons (s : Stmt) (rest : StmtList)
end

/-- Runtime environment (class Environment of interpreter.py): a dict of
variable bindings plus an optional parent environment. -/
inductive Environment where
  | mk (vars : List (String × Value)) (parent : Option Environment)

/-- Lookup in the vars dict of one environment level. -/
def lookupVar : List (String × Value) → String → Option Value
  | [], _ => none
  | (k, v) :: rest, n => if k = n then some v else lookupVar rest n

/-- Assignment into the vars dict of one environment level: replaces the
binding if the key is present, otherwise appends it (Python dict update). -/
def updateVar : List (String × Value) → String → Value → List (String × Value)
  | [], n, v => [(n, v)]
  | (k, w) :: rest, n, v =>
    if k = n then (n, v) :: rest else (k, w) :: updateVar rest n v

namespace Environment

/-- Environment.define: define a new variable in this scope. -/
def define : Environment → String → Value → Environment
  | .mk vars parent, name, v => .mk (updateVar vars name v) parent

/-- Environment.get: get a variable value, checking parent scopes if needed;
raises RuntimeError when the name is bound nowhere. -/
def get : Environment → String → Except PyErr Value
  | .mk vars parent, name =>
    match lookupVar vars name with
    | some v => .ok v
    | none =>
      match parent with
      | some p => p.get name
      | none => .error (.runtimeError ("Undefined variable: " ++ name))

/-- Environment.set: set a variable value in the scope where it was defined;
raises RuntimeError when the name is bound nowhere. -/
def set : Environment → String → Value → Except PyErr Environment
  | .mk vars parent, name, v =>
    if (lookupVar vars name).isSome then
      .ok (.mk (updateVar vars name v) parent)
    else
      match parent with
      | some p =>
        match p.set name v with
        | .ok p2 => .ok (.mk vars (some p2))
        | .error e => .error e
      | none => .error (.runtimeError ("Undefined variable: " ++ name))

end Environment

/-- GridWorld (interpreter.py): the simulated 2D grid with the agent
position, facing and the set of dirty cells. -/
structure GridWorld where
  width : Int
  height : Int
  agent_x : Int
  agent_y : Int
  agent_direction : String
  dirt : Finset (Int × Int)
deriving DecidableEq

namespace GridWorld

/-- GridWorld.DIRECTIONS, in clockwise order. -/
def DIRECTIONS : List String := ["north", "east", "south", "west"]

/-- GridWorld.__init__(width, height): agent at (0, 0) facing north, and the
three dirt cells (2, 2), (3, 1), (1, 3) added for testing, independent of
the requested dimensions. -/
def init (width height : Int) : GridWorld :=
  { width := width
    height := height
    agent_x := 0
    agent_y := 0
    agent_direction := "north"
    dirt := {(2, 2), (3, 1), (1, 3)} }

/-- The cell one step from the agent in its current facing, as computed at
the top of GridWorld.move: unknown facings leave the coordinates unchanged
(none of the four if branches fires). -/
def nextCell (g : GridWorld) : Int × Int :=
  if g.agent_direction = "north" then (g.agent_x, g.agent_y - 1)
  else if g.agent_direction = "south" then (g.agent_x, g.agent_y + 1)
  else if g.agent_direction = "east" then (g.agent_x + 1, g.agent_y)
  else if g.agent_direction = "west" then (g.agent_x - 1, g.agent_y)
  else (g.agent_x, g.agent_y)

/-- GridWorld.move: step one cell in the facing direction; if the target
cell is outside the bounds check (0 <= x < width and 0 <= y < height) the
agent is not moved and a RuntimeError is raised. -/
def move (g : GridWorld) : Except PyErr GridWorld :=
  let c := nextCell g
  if 0 ≤ c.1 ∧ c.1 < g.width ∧ 0 ≤ c.2 ∧ c.2 < g.height then
    .ok { g with agent_x := c.1, agent_y := c.2 }
  else
    .error (.runtimeError
      ("Cannot move: agent would move off grid at (" ++ toString c.1 ++ ", "
        ++ toString c.2 ++ ")"))

/-- GridWorld.turn_left: rotate the facing 90 degrees counter-clockwise,
via the index in DIRECTIONS and Python modular arithmetic (idx - 1) % 4. -/
def turn_left (g : GridWorld) : GridWorld :=
  let idx : Int := (DIRECTIONS.indexOf g.agent_direction : Int)
  { g with agent_direction := DIRECTIONS.getD ((idx - 1) % 4).toNat "" }

/-- GridWorld.turn_right: rotate the facing 90 degrees clockwise. -/
def turn_right (g : GridWorld) : GridWorld :=
  let idx : Int := (DIRECTIONS.indexOf g.agent_direction : Int)
  { g with agent_direction := DIRECTIONS.getD ((idx + 1) % 4).toNat "" }

/-- GridWorld.clean: remove dirt at the agent cell when present, otherwise
do nothing. -/
def clean (g : GridWorld) : GridWorld :=
  let pos := (g.agent_x, g.agent_y)
  if pos ∈ g.dirt then { g with dirt := g.dirt.erase pos } else g

/-- GridWorld.sense: pure query, true when the agent cell has dirt. -/
def sense (g : GridWorld) : Bool :=
  (g.agent_x, g.agent_y) ∈ g.dirt

end GridWorld

/-- The mutable attributes of class Interpreter that statement execution
touches: the environment, the optional grid and the const-name set. -/
structure InterpState where
  env : Environment
  grid : Option GridWorld
  const_vars : List String

/-- Python truthiness of a runtime value (used by if/while tests, logical
operators and unary not). -/
def pyTruthy : Value → Bool
  | .int n => n != 0
  | .bool b => b
  | .str s => s != ""
  | .vnone => false

/-- Numeric view of a value: Python arithmetic treats bool as the ints 0
and 1. -/
def toNum : Value → Option Int
  | .int n => some n
  | .bool b => some (if b then 1 else 0)
  | _ => none

/-- Python string repetition s * n (n copies, empty for n <= 0). -/
def strRepeat (s : String) : Nat → String
  | 0 => ""
  | n + 1 => s ++ strRepeat s n

/-- Python ==: numeric values compare by value (True == 1, False == 0),
strings by content, None only to None; mismatched kinds are unequal. -/
def pyEq (a b : Value) : Bool :=
  match toNum a, toNum b with
  | some x, some y => x == y
  | _, _ =>
    match a, b with
    | .str s, .str t => s == t
    | .vnone, .vnone => true
    | _, _ => false

/-- Python ordered comparison, parametrized by the int and string orders:
numbers compare numerically (bool as 0/1), strings lexicographically, any
other mix raises TypeError. -/
def pyCmp (fi : Int → Int → Bool) (fs : String → String → Bool)
    (a b : Value) : Except PyErr Value :=
  match toNum a, toNum b with
  | some x, some y => .ok (.bool (fi x y))
  | _, _ =>
    match a, b with
    | .str s, .str t => .ok (.bool (fs s t))
    | _, _ => .error .typeError

/-- Python left + right: numeric addition (bool as 0/1) or string
concatenation; other mixes raise TypeError. -/
def pyAdd (a b : Value) : Except PyErr Value :=
  match toNum a, toNum b with
  | some x, some y => .ok (.int (x + y))
  | _, _ =>
    match a, b with
    | .str s, .str t => .ok (.str (s ++ t))
    | _, _ => .error .typeError

/-- Python left - right: numeric only. -/
def pySub (a b : Value) : Except PyErr Value :=
  match toNum a, toNum b with
  | some x, some y => .ok (.int (x - y))
  | _, _ => .error .typeError

/-- Python left * right: numeric product, or string repetition when one
side is a string and the other a number. -/
def pyMul (a b : Value) : Except PyErr Value :=
  match toNum a, toNum b with
  | some x, some y => .ok (.int (x * y))
  | _, _ =>
    match a, b with
    | .str s, _ =>
      match toNum b with
      | some y => .ok (.str (strRepeat s y.toNat))
      | none => .error .typeError
    | _, .str t =>
      match toNum a with
      | some x => .ok (.str (strRepeat t x.toNat))
      | none => .error .typeError
    | _, _ => .error .typeError

/-- Python left // right on numbers: floor division (bool as 0/1). -/
def pyFloorDiv (a b : Value) : Except PyErr Value :=
  match toNum a, toNum b with
  | some x, some y => .ok (.int (Int.fdiv x y))
  | _, _ => .error .typeError

/-- Interpreter.evaluate_expr together with the inlined
Interpreter.evaluate_binary_expr dispatch.  A Python None in an expression
slot (Expr.enone) evaluates to None.  The reserved identifier sense queries
the grid (failing when no grid exists) and dirt always fails; any other
identifier is read from the environment.  Binary dispatch: not evaluates
only the left slot and negates its truthiness; every other operator
evaluates left then right eagerly; division checks right == 0 (Python ==,
so False also counts as zero) before dividing; and/or return one of the two
operand values selected by the truthiness of the left one; an operator
string outside the table raises RuntimeError. -/
def evaluate_expr (st : InterpState) : Expr → Except PyErr Value
  | .enone => .ok .vnone
  | .literal v => .ok v
  | .ident name =>
    if name = "sense" then
      match st.grid with
      | some g => .ok (.bool g.sense)
      | none => .error (.runtimeError "Cannot call sense: grid not initialized")
    else if name = "dirt" then
      .error (.runtimeError "dirt is not a valid identifier")
    else
      st.env.get name
  | .binary op l r =>
    if op = "not" then
      match evaluate_expr st l with
      | .error e => .error e
      | .ok right => .ok (.bool (!pyTruthy right))
    else
      match evaluate_expr st l with
      | .error e => .error e
      | .ok left =>
        match evaluate_expr st r with
        | .error e => .error e
        | .ok right =>
          if op = "+" then pyAdd left right
          else if op = "-" then pySub left right
          else if op = "*" then pyMul left right
          else if op = "/" then
            if pyEq right (.int 0) then
              .error (.runtimeError "Division by zero")
            else pyFloorDiv left right
          else if op = "==" then .ok (.bool (pyEq left right))
          else if op = "!=" then .ok (.bool (!pyEq left right))
          else if op = "<" then pyCmp (fun x y => x < y) (fun s t => s < t) left right
          else if op = "<=" then pyCmp (fun x y => x ≤ y) (fun s t => s ≤ t) left right
          else if op = ">" then pyCmp (fun x y => x > y) (fun s t => s > t) left right
          else if op = ">=" then pyCmp (fun x y => x ≥ y) (fun s t => s ≥ t) left right
          else if op = "and" then .ok (if pyTruthy left then right else left)
          else if op = "or" then .ok (if pyTruthy left then left else right)
          else .error (.runtimeError ("Unknown operator: " ++ op))

/-- Interpreter.execute_var_decl: evaluate the initializer when present
(Python truthiness: the init slot is None exactly when it is Expr.enone),
otherwise apply the default for the declared type (int 0, bool False,
direction north, else None), then bind the name. -/
def execute_var_decl (st : InterpState) (name varType : String) (init : Expr) :
    Except PyErr InterpState :=
  let valueE : Except PyErr Value :=
    match init with
    | .enone =>
      .ok (if varType = "int" then .int 0
        else if varType = "bool" then .bool false
        else if varType = "direction" then .str "north"
        else .vnone)
    | e => evaluate_expr st e
  match valueE with
  | .error e => .error e
  | .ok v => .ok { st with env := st.env.define name v }

/-- Interpreter.execute_const_decl: evaluate the value, bind the name and
record it in the const-name set. -/
def execute_const_decl (st : InterpState) (name varType : String) (value : Expr) :
    Except PyErr InterpState :=
  match evaluate_expr st value with
  | .error e => .error e
  | .ok v =>
    .ok { st with
      env := st.env.define name v
      const_vars := name :: st.const_vars }

/-- Interpreter.execute_assign: reject assignment to a recorded constant,
then evaluate the value, then store it via Environment.set (which fails on
a name bound nowhere).  The constant check precedes evaluation, and
Environment.set runs only after evaluation succeeded. -/
def execute_assign (st : InterpState) (name : String) (value : Expr) :
    Except PyErr InterpState :=
  if name ∈ st.const_vars then
    .error (.runtimeError ("Cannot assign to constant: " ++ name))
  else
    match evaluate_expr st value with
    | .error e => .error e
    | .ok v =>
      match st.env.set name v with
      | .error e => .error e
      | .ok env2 => .ok { st with env := env2 }

/-- Interpreter.execute_action: fail when no grid exists, otherwise
dispatch to the GridWorld mutators; sense as a statement only queries. -/
def execute_action (st : InterpState) (action : String) :
    Except PyErr InterpState :=
  match st.grid with
  | none => .error (.runtimeError "Grid not initialized. Missing grid() declaration?")
  | some g =>
    if action = "move" then
      match g.move with
      | .error e => .error e
      | .ok g2 => .ok { st with grid := some g2 }
    else if action = "turnLeft" then .ok { st with grid := some g.turn_left }
    else if action = "turnRight" then .ok { st with grid := some g.turn_right }
    else if action = "clean" then .ok { st with grid := some g.clean }
    else if action = "sense" then .ok st
    else .error (.runtimeError ("Unknown action: " ++ action))

mutual
/-- Interpreter.execute_stmt: dispatch on the statement kind.  An if
statement runs its consequent when the test is truthy, otherwise its
alternate when that is truthy (a non-empty list); a while statement enters
the capped loop of execute_while at iteration 0. -/
def execute_stmt : Stmt → InterpState → Except PyErr InterpState
  | .varDecl n t i, st => execute_var_decl st n t i
  | .constDecl n t v, st => execute_const_decl st n t v
  | .assign n v, st => execute_assign st n v
  | .ifStmt test conseq alt, st =>
    match evaluate_expr st test with
    | .error e => .error e
    | .ok c =>
      if pyTruthy c then execute_stmts conseq st
      else
        match alt with
        | .nil => .ok st
        | l => execute_stmts l st
  | .whileStmt test body, st => execute_while test body 0 st
  | .actionStmt a, st => execute_action st a
termination_by s _ => (sizeOf s, 0)

/-- Sequential execution of a statement list (the for-loops over statement
bodies in Interpreter.run, execute_if and execute_while). -/
def execute_stmts : StmtList → InterpState → Except PyErr InterpState
  | .nil, st => .ok st
  | .cons s rest, st =>
    match execute_stmt s st with
    | .error e => .error e
    | .ok st2 => execute_stmts rest st2
termination_by l _ => (sizeOf l, 0)

/-- Interpreter.execute_while: re-evaluate the test before each iteration;
when it is truthy, increment the iteration counter, raise the
infinite-loop RuntimeError when the counter exceeds 10000, and otherwise
run the body and loop. -/
def execute_while (test : Expr) (body : StmtList) (iteration : Nat)
    (st : InterpState) : Except PyErr InterpState :=
  match evaluate_expr st test with
  | .error e => .error e
  | .ok c =>
    if pyTruthy c then
      if iteration + 1 > 10000 then
        .error (.runtimeError "Infinite loop detected (exceeded 10000 iterations)")
      else
        match execute_stmts body st with
        | .error e => .error e
        | .ok st2 => execute_while test body (iteration + 1) st2
    else .ok st
termination_by (sizeOf body, 10001 - iteration)
decreasing_by
  all_goals simp_wf
  all_goals
    first
    | (apply Prod.Lex.right; omega)
    | (apply Prod.Lex.left; omega)
end

/-- The n-fold sequential composition of one body execution, used to state
how many times a capped while loop has run its body. -/
def iterBody (body : StmtList) : Nat → InterpState → Except PyErr InterpState
  | 0, st => .ok st
  | n + 1, st =>
    match execute_stmts body st with
    | .error e => .error e
    | .ok st2 => iterBody body n st2

/-- Modelled from the spec: the uncapped while loop a reader would expect
(re-evaluate the test, stop when it is falsy, otherwise run the body and
repeat), with explicit fuel bounding how many body executions may be
inspected; none means the loop was still running when the fuel ran out. -/
def loopFuel (test : Expr) (body : StmtList) :
    Nat → InterpState → Option (Except PyErr InterpState)
  | 0, st =>
    match evaluate_expr st test with
    | .error e => some (.error e)
    | .ok c => if pyTruthy c then none else some (.ok st)
  | f + 1, st =>
    match evaluate_expr st test with
    | .error e => some (.error e)
    | .ok c =>
      if pyTruthy c then
        match execute_stmts body st with
        | .error e => some (.error e)
        | .ok st2 => loopFuel test body f st2
      else some (.ok st)

mutual
/-- A CST node (cst.py CSTNode / its to_dict image): a type tag, an
optional terminal value, and an ordered list of children.  to_dict omits
the children key when the list is empty, so the Python checks for a
missing or falsy children entry correspond to the empty list here. -/
inductive CST where
  | node (ty : String) (value : Option String) (children : CSTList)

/-- A Python list of CST children, declared mutually with CST so that the
converter is structurally recursive. -/
inductive CSTList where
  | nil
  | cons (c : CST) (rest : CSTList)
end

/-- Python str.isdigit for ASCII digit strings: non-empty and all digits. -/
def pyIsDigit (s : String) : Bool :=
  s != "" && s.toList.all Char.isDigit

/-- Python int(s) on a digit string: base-10 value of the digit list. -/
def pyInt (s : String) : Int :=
  ((s.toList.foldl (fun n c => n * 10 + (c.toNat - 48)) 0 : Nat) : Int)

/-- converter.py flatten_expression.  The FACTOR base case turns a LITERAL
child into a Literal (digits parsed as int, true/false as bool, any other
text kept as string) and a TERMINAL child into an Identifier (sense and
dirt included) or, for not, a BinaryExpr carrying its operand in left and
None in right; a FACTOR child of any other type falls through to the
composite case, whose logic therefore appears twice below (Python reaches
one code block both ways; it is inlined at both reaching points here so
the recursion stays structural).  The composite case flattens children[0]
and, when the immediate tail slot children[1] is non-empty, pairs it with
the single operand found at tail.children[1] under the operator text at
tail.children[0].children[0] — the tail of the tail is never consulted.
Branches where Python would fault on a missing child or value slot
(impossible on parser output) yield Expr.enone like the handled
empty-slot cases. -/
def flatten_expression : CST → Expr
  -- FACTOR whose first child is a LITERAL node: read the terminal text at
  -- its first child and parse it
  | .node "FACTOR" _ (.cons (.node "LITERAL" _ (.cons (.node _ (some val) _) _)) _) =>
    if pyIsDigit val then .literal (.int (pyInt val))
    else if val = "true" ∨ val = "false" then .literal (.bool (val = "true"))
    else .literal (.str val)
  | .node "FACTOR" _ (.cons (.node "LITERAL" _ (.cons (.node _ none _) _)) _) => .enone
  | .node "FACTOR" _ (.cons (.node "LITERAL" _ .nil) _) => .enone
  -- FACTOR whose first child is a TERMINAL: the not operator wraps the
  -- flattened second child with right = None; every other terminal —
  -- including the specially listed sense and dirt — becomes the same
  -- Identifier node that the regular-identifier branch builds
  | .node "FACTOR" _ (.cons (.node "TERMINAL" (some "not") _) (.cons c1 _)) =>
    .binary "not" (flatten_expression c1) .enone
  | .node "FACTOR" _ (.cons (.node "TERMINAL" (some "not") _) .nil) => .enone
  | .node "FACTOR" _ (.cons (.node "TERMINAL" (some value) _) _) => .ident value
  | .node "FACTOR" _ (.cons (.node "TERMINAL" none _) _) => .enone
  -- FACTOR with no children: Python faults reading children[0]
  | .node "FACTOR" _ .nil => .enone
  -- FACTOR whose first child is neither LITERAL nor TERMINAL falls
  -- through to the composite logic below, repeated here verbatim so the
  -- recursion stays structural
  | .node "FACTOR" _ (.cons child .nil) => flatten_expression child
  | .node "FACTOR" _ (.cons child (.cons (.node _ _ .nil) _)) => flatten_expression child
  | .node "FACTOR" _ (.cons child (.cons (.node _ _
      (.cons (.node _ _ (.cons (.node _ (some op) _) _)) (.cons t1 _))) _)) =>
    .binary op (flatten_expression child) (flatten_expression t1)
  | .node "FACTOR" _ (.cons _ (.cons (.node _ _ (.cons _ _)) _)) => .enone
  -- composite case for every non-FACTOR node: flatten children[0]; when
  -- the immediate tail slot children[1] is absent or empty return it
  -- alone, otherwise combine it with the operator text at
  -- tail.children[0].children[0] and the operand at tail.children[1]
  | .node _ _ .nil => .enone
  | .node _ _ (.cons c0 .nil) => flatten_expression c0
  | .node _ _ (.cons c0 (.cons (.node _ _ .nil) _)) => flatten_expression c0
  | .node _ _ (.cons c0 (.cons (.node _ _
      (.cons (.node _ _ (.cons (.node _ (some op) _) _)) (.cons t1 _))) _)) =>
    .binary op (flatten_expression c0) (flatten_expression t1)
  | .node _ _ (.cons _ (.cons (.node _ _ (.cons _ _)) _)) => .enone

/-- converter.py convert_expression: delegates to flatten_expression. -/
def convert_expression (node : CST) : Expr :=
  flatten_expression node

/-- converter.py convert_condition: flatten children[0]; when the
condition tail at children[1] is non-empty, pair it with the relational
operator text and the flattened right operand. -/
def convert_condition : CST → Expr
  | .node _ _ (.cons c0 (.cons tail _)) =>
    let left := flatten_expression c0
    (match tail with
     | .node _ _ (.cons (.node _ _ (.cons (.node _ (some op) _) _)) (.cons rhs _)) =>
       .binary op left (flatten_expression rhs)
     | .node _ _ .nil => left
     | _ => .enone)
  | _ => .enone

/-- converter.py convert_declaration: children are
CONST ID : TYPE = EXPR ; or VAR ID : TYPE var_tail, with the declared type
at type_node.children[0] and the optional var initializer inside the
var_tail slot.  none models the Python faults on malformed children
(impossible on parser output). -/
def convert_declaration : CST → Option Stmt
  | .node _ _ (.cons (.node _ (some first_token) _)
      (.cons (.node _ (some id_value) _)
        (.cons _ (.cons (.node _ _ (.cons (.node _ (some var_type) _) _)) rest)))) =>
    if first_token = "const" then
      match rest with
      | .cons _ (.cons exprNode _) =>
        some (.constDecl id_value var_type (convert_expression exprNode))
      | _ => none
    else
      match rest with
      | .cons (.node _ _ varTailCh) _ =>
        match varTailCh with
        | .cons _ (.cons initExpr _) =>
          some (.varDecl id_value var_type (convert_expression initExpr))
        | _ => some (.varDecl id_value var_type .enone)
      | _ => none
  | _ => none

mutual
/-- converter.py convert_statement: dispatch on the CST node type, with
the bodies of convert_assignment, convert_if, convert_while and
convert_action inlined at their dispatch sites; an unrecognized type maps
to none (Python returns None, which no well-typed downstream consumer
survives — parser output never produces it). -/
def convert_statement : CST → Option Stmt
  | .node ty _ ch =>
    if ty = "ASSIGNMENT" then
      match ch with
      | .cons (.node _ (some target) _) (.cons _ (.cons exprNode _)) =>
        some (.assign target (convert_expression exprNode))
      | _ => none
    else if ty = "IF_STATEMENT" then
      match ch with
      | .cons _ (.cons _ (.cons cond (.cons _ (.cons block (.cons elsePart _))))) =>
        match convert_block block with
        | none => none
        | some conseq =>
          match elsePart with
          | .node _ _ .nil => some (.ifStmt (convert_condition cond) conseq .nil)
          | .node _ _ (.cons _ (.cons elseBlock _)) =>
            match convert_block elseBlock with
            | none => none
            | some alternate => some (.ifStmt (convert_condition cond) conseq alternate)
          | _ => none
      | _ => none
    else if ty = "WHILE_STATEMENT" then
      match ch with
      | .cons _ (.cons _ (.cons cond (.cons _ (.cons block _)))) =>
        match convert_block block with
        | none => none
        | some body => some (.whileStmt (convert_condition cond) body)
      | _ => none
    else if ty = "ACTION" then
      match ch with
      | .cons (.node _ (some action_name) _) _ =>
        some (.actionStmt action_name)
      | _ => none
    else if ty = "BLOCK" then none
    else none

/-- converter.py convert_block: blocks with at most one child convert to
the empty list; otherwise each child of the STATEMENTS slot at children[1]
is converted in order. -/
def convert_block : CST → Option StmtList
  | .node _ _ (.cons _ (.cons (.node _ _ stmts) _)) => convert_stmt_list stmts
  | _ => some .nil

/-- Conversion of the children of a STATEMENTS node, in order. -/
def convert_stmt_list : CSTList → Option StmtList
  | .nil => some .nil
  | .cons c rest =>
    match convert_statement c, convert_stmt_list rest with
    | some s, some l => some (.cons s l)
    | _, _ => none
end

/-- The AST Program node: name and combined declaration/statement body. -/
structure ProgramAst where
  name : String
  body : StmtList

/-- Concatenation of statement lists (the two body.append loops of
convert_cst_to_ast build one combined list). -/
def appendStmtList : StmtList → StmtList → StmtList
  | .nil, l => l
  | .cons s rest, l => .cons s (appendStmtList rest l)

/-- Conversion of the children of the DECLARATIONS slot, in order. -/
def convert_decl_list : CSTList → Option StmtList
  | .nil => some .nil
  | .cons c rest =>
    match convert_declaration c, convert_decl_list rest with
    | some s, some l => some (.cons s l)
    | _, _ => none

/-- converter.py convert_cst_to_ast: for a PROGRAM node take the program
name from children[1], the declarations from children[4] and the
statements from children[5] into one combined body; any other node type
maps to None. -/
def convert_cst_to_ast : CST → Option ProgramAst
  | .node ty _ ch =>
    if ty = "PROGRAM" then
      match ch with
      | .cons _ (.cons (.node _ (some program_name) _)
          (.cons _ (.cons _ (.cons (.node _ _ decls) rest)))) =>
        match convert_decl_list decls with
        | none => none
        | some dl =>
          match rest with
          | .cons (.node _ _ stmts) _ =>
            match convert_stmt_list stmts with
            | none => none
            | some sl => some ⟨program_name, appendStmtList dl sl⟩
          | .nil => some ⟨program_name, dl⟩
      | _ => none
    else none

/-- A semantic diagnostic, a code plus message (semantic.py errors). -/
structure Diag where
  code : String
  msg : String
deriving DecidableEq, Repr

/-- A symbol-table entry (symbols.py Symbol): name, const/var category and
declared type; the AST-node back reference and position are dropped. -/
structure Symb where
  name : String
  category : String
  declType : String
deriving DecidableEq, Repr

/-- A scope (symbols.py Scope): the name-to-symbol dict of this level plus
the parent chain.  The Python parent pointer links scope objects into a
chain; the embedding stores that chain directly as the list of the
ancestor levels' name dicts (empty list = no parent), which is the same
data without the nested object graph. -/
inductive Scope where
  | mk (names : List (String × Symb)) (parent : List (List (String × Symb)))

/-- Lookup in the names dict of one scope level. -/
def lookupSym : List (String × Symb) → String → Option Symb
  | [], _ => none
  | (k, s) :: rest, n => if k = n then some s else lookupSym rest n

/-- The parent-chain walk of Scope.resolve beyond the first level. -/
def resolveChain : List (List (String × Symb)) → String → Option Symb
  | [], _ => none
  | names :: rest, n =>
    match lookupSym names n with
    | some s => some s
    | none => resolveChain rest n

namespace Scope

/-- Scope.declare: fails (KeyError in Python) on a duplicate name in the
same scope, otherwise records the symbol. -/
def declare (sc : Scope) (name category var_type : String) :
    Except String Scope :=
  match sc with
  | .mk names parent =>
    if (lookupSym names name).isSome then
      .error ("Duplicate declaration: " ++ name)
    else
      .ok (.mk ((name, ⟨name, category, var_type⟩) :: names) parent)

/-- Scope.resolve: check this level, then walk the parent chain. -/
def resolve (sc : Scope) (n : String) : Option Symb :=
  match sc with
  | .mk names parent =>
    match lookupSym names n with
    | some s => some s
    | none => resolveChain parent n

end Scope

/-- The declaration pass of semantic.py analyze: scan only the top-level
body; each ConstDecl/VarDecl is declared in the global scope, a duplicate
name appends an E_DUP_DECL diagnostic (keeping the first declaration) and
processing continues; other statement kinds are skipped.  Python turns the
KeyError into its message via str, which adds surrounding quote marks;
they are left off the message here. -/
def declaration_pass : StmtList → Scope → List Diag → Scope × List Diag
  | .nil, sc, errs => (sc, errs)
  | .cons s rest, sc, errs =>
    match s with
    | .constDecl name var_type _ =>
      (match sc.declare name "const" var_type with
       | .ok sc2 => declaration_pass rest sc2 errs
       | .error m => declaration_pass rest sc (errs ++ [⟨"E_DUP_DECL", m⟩]))
    | .varDecl name var_type _ =>
      (match sc.declare name "var" var_type with
       | .ok sc2 => declaration_pass rest sc2 errs
       | .error m => declaration_pass rest sc (errs ++ [⟨"E_DUP_DECL", m⟩]))
    | _ => declaration_pass rest sc errs

/-- semantic.py resolve_expr: an Identifier that does not resolve yields
E_UNDEFINED; a BinaryExpr recurses into both operand slots; literals and a
missing expression (Python None) yield nothing. -/
def resolve_expr (scope : Scope) : Expr → List Diag
  | .ident name =>
    if (scope.resolve name).isSome then []
    else [⟨"E_UNDEFINED", "Undefined identifier: " ++ name⟩]
  | .binary _ l r => resolve_expr scope l ++ resolve_expr scope r
  | _ => []

mutual
/-- The per-statement work of semantic.py check_statements: an Assign
checks its target (E_UNDEFINED when unresolved, E_CONST_ASSIGN when the
symbol category is const) and then resolves its value; ActionStmt checks
nothing; IfStmt resolves its test and recurses into the consequent and,
when truthy (non-empty), the alternate; WhileStmt resolves its test and
recurses into its body; every other statement kind — in particular the
declarations — is skipped by the resolution pass. -/
def check_statement (scope : Scope) : Stmt → List Diag
  | .assign target value =>
    (match scope.resolve target with
     | none => [⟨"E_UNDEFINED", "Undefined variable: " ++ target⟩]
     | some sym =>
       if sym.category = "const" then
         [⟨"E_CONST_ASSIGN", "Cannot reassign constant: " ++ target⟩]
       else []) ++ resolve_expr scope value
  | .actionStmt _ => []
  | .ifStmt test conseq alt =>
    resolve_expr scope test ++ check_statements scope conseq ++
      (match alt with
       | .nil => []
       | l => check_statements scope l)
  | .whileStmt test body =>
    resolve_expr scope test ++ check_statements scope body
  | _ => []

/-- semantic.py check_statements: fold of check_statement over a block. -/
def check_statements (scope : Scope) : StmtList → List Diag
  | .nil => []
  | .cons s rest => check_statement scope s ++ check_statements scope rest
end

/-- semantic.py analyze, applied to the body of the Program AST: run the
declaration pass into a fresh global scope, then the resolution pass, and
return the accumulated diagnostics in order. -/
def analyze (body : StmtList) : List Diag :=
  let p := declaration_pass body (.mk [] []) []
  p.2 ++ check_statements p.1 body

/-- The fail-closed gate of interpreter.py main step 4: interpretation
runs only when analyze returned no diagnostics; otherwise main prints the
diagnostics and exits before any Interpreter is created. -/
def semantic_gate_allows_run (body : StmtList) : Bool :=
  (analyze body).isEmpty

/-- The keyword and reserved-word entries of lexer.py
token_specification that can collide with identifier-shaped words, in
their source order (every one comes before the generic ID entry). -/
def keyword_specs : List (String × String) :=
  [("GRID", "grid"), ("PROGRAM", "program"), ("CONST", "const"), ("VAR", "var"),
   ("TYPE_INT", "int"), ("TYPE_BOOL", "bool"), ("TYPE_DIRECTION", "direction"),
   ("WHILE", "while"), ("IF", "if"), ("ELSE", "else"),
   ("MOVE", "move"), ("TURN_LEFT", "turnLeft"), ("TURN_RIGHT", "turnRight"),
   ("SENSE", "sense"), ("CLEAN", "clean"),
   ("BOOL_LITERAL", "true"), ("BOOL_LITERAL", "false"),
   ("DIRECTION_LITERAL", "north"), ("DIRECTION_LITERAL", "south"),
   ("DIRECTION_LITERAL", "east"), ("DIRECTION_LITERAL", "west"),
   ("AND", "and"), ("OR", "or"), ("NOT", "not")]

/-- Modelled from token_specification in lexer.py: the token kind the
lexer assigns to a maximal identifier-shaped word.  Each keyword pattern
is the keyword between word boundaries, so against a maximal word it
matches exactly when the word equals the keyword; matching is ordered
first-pattern-wins, and the generic ID pattern comes after every keyword,
so a word that equals no keyword becomes an ID. -/
def classify_word (w : String) : String :=
  match keyword_specs.find? (fun p => p.2 == w) with
  | some p => p.1
  | none => "ID"

/-- An agent operation of the grid simulation, as dispatched by
Interpreter.execute_action. -/
inductive AgentOp where
  | move
  | turnLeft
  | turnRight
  | clean
  | sense

/-- One agent operation applied to the grid alone: a failing move raises
in Python before any mutation, so the grid is kept unchanged. -/
def applyOp (g : GridWorld) : AgentOp → GridWorld
  | .move =>
    match g.move with
    | .ok g2 => g2
    | .error _ => g
  | .turnLeft => g.turn_left
  | .turnRight => g.turn_right
  | .clean => g.clean
  | .sense => g

/-- A finite sequence of agent operations applied in order. -/
def runOps (g : GridWorld) (ops : List AgentOp) : GridWorld :=
  ops.foldl applyOp g

/-- The agent-position part of the GridWorld invariant from the spec data
model: coordinates within the half-open width/height ranges. -/
def agentInBounds (g : GridWorld) : Prop :=
  0 ≤ g.agent_x ∧ g.agent_x < g.width ∧ 0 ≤ g.agent_y ∧ g.agent_y < g.height

instance (g : GridWorld) : Decidable (agentInBounds g) := by
  unfold agentInBounds; infer_instance

/-- Modelled from the spec glossary: the clockwise cycle
north to east to south to west of facings. -/
def clockwiseNext : String → String
  | "north" => "east"
  | "east" => "south"
  | "south" => "west"
  | "west" => "north"
  | d => d

/-- Does an expression contain the name sense as an Identifier node? -/
def expr_mentions_sense : Expr → Bool
  | .ident n => n == "sense"
  | .binary _ l r => expr_mentions_sense l || expr_mentions_sense r
  | _ => false

mutual
/-- Does the resolution pass of semantic.py visit an occurrence of sense
as an Identifier in this statement?  Mirrors exactly the positions
check_statement resolves: assignment values, if tests with both branch
blocks, while tests with bodies — declaration initializers are not
visited. -/
def stmt_sense_checked : Stmt → Bool
  | .assign _ v => expr_mentions_sense v
  | .ifStmt t c a =>
    expr_mentions_sense t || stmts_sense_checked c || stmts_sense_checked a
  | .whileStmt t b => expr_mentions_sense t || stmts_sense_checked b
  | _ => false

/-- Any statement of the list with a resolution-visited sense. -/
def stmts_sense_checked : StmtList → Bool
  | .nil => false
  | .cons s rest => stmt_sense_checked s || stmts_sense_checked rest
end

mutual
/-- Does this statement contain the name sense as an Identifier anywhere
in an expression — including the declaration initializers that the
resolution pass never visits? -/
def stmt_mentions_sense : Stmt → Bool
  | .varDecl _ _ i => expr_mentions_sense i
  | .constDecl _ _ v => expr_mentions_sense v
  | .assign _ v => expr_mentions_sense v
  | .ifStmt t c a =>
    expr_mentions_sense t || stmts_mention_sense c || stmts_mention_sense a
  | .whileStmt t b => expr_mentions_sense t || stmts_mention_sense b
  | .actionStmt _ => false

/-- Any statement of the list with sense anywhere in an expression. -/
def stmts_mention_sense : StmtList → Bool
  | .nil => false
  | .cons s rest => stmt_mentions_sense s || stmts_mention_sense rest
end

/-- The name a top-level declaration would register, none otherwise. -/
def decl_name : Stmt → Option String
  | .varDecl n _ _ => some n
  | .constDecl n _ _ => some n
  | _ => none

/-- Does some top-level declaration of the body register this name? -/
def declares_name : StmtList → String → Bool
  | .nil, _ => false
  | .cons s rest, x => decl_name s == some x || declares_name rest x

/-- Helper for writing concrete CST children lists. -/
def cstList : List CST → CSTList
  | [] => .nil
  | c :: r => .cons c (cstList r)

/-- A TERMINAL leaf as produced by Parser.eat. -/
def termNode (s : String) : CST :=
  .node "TERMINAL" (some s) .nil

/-- An inner CST node with the given children, as produced by the parser
rule functions (inner nodes carry no value). -/
def innerNode (ty : String) (ch : List CST) : CST :=
  .node ty none (cstList ch)

/-- The EXPRESSION subtree the parser produces for a single numeric
literal: EXPRESSION(TERM(FACTOR(LITERAL(TERMINAL n)), TERM_TAIL()),
EXPRESSION_TAIL()). -/
def numExprCST (s : String) : CST :=
  innerNode "EXPRESSION"
    [innerNode "TERM"
      [innerNode "FACTOR" [innerNode "LITERAL" [termNode s]],
       innerNode "TERM_TAIL" []],
     innerNode "EXPRESSION_TAIL" []]

/-- The EXPRESSION subtree the parser produces for the source text
1 + 2 + 3: the two chained additive operators sit in right-nested
EXPRESSION_TAIL nodes. -/
def cst123 : CST :=
  innerNode "EXPRESSION"
    [innerNode "TERM"
      [innerNode "FACTOR" [innerNode "LITERAL" [termNode "1"]],
       innerNode "TERM_TAIL" []],
     innerNode "EXPRESSION_TAIL"
      [innerNode "ADD_OP" [termNode "+"],
       innerNode "TERM"
        [innerNode "FACTOR" [innerNode "LITERAL" [termNode "2"]],
         innerNode "TERM_TAIL" []],
       innerNode "EXPRESSION_TAIL"
        [innerNode "ADD_OP" [termNode "+"],
         innerNode "TERM"
          [innerNode "FACTOR" [innerNode "LITERAL" [termNode "3"]],
           innerNode "TERM_TAIL" []],
         innerNode "EXPRESSION_TAIL" []]]]

/-- The PROGRAM CST the parser produces for the source
program P { grid(5,5); const x : int = 5; x = 6; } following the grammar
in parser.py (brace terminals written with escapes). -/
def cstC4 : CST :=
  innerNode "PROGRAM"
    [termNode "program", termNode "P", termNode "\x7b",
     innerNode "WORLD_DEF"
      [termNode "grid", termNode "(", termNode "5", termNode ",",
       termNode "5", termNode ")", termNode ";"],
     innerNode "DECLARATIONS"
      [innerNode "DECLARATION"
        [termNode "const", termNode "x", termNode ":",
         innerNode "TYPE" [termNode "int"], termNode "=",
         numExprCST "5", termNode ";"]],
     innerNode "STATEMENTS"
      [innerNode "ASSIGNMENT"
        [termNode "x", termNode "=", numExprCST "6", termNode ";"]],
     termNode "\x7d"]

/-- The AST body of the C4 scenario program: const x : int = 5 followed
by x = 6. -/
def bodyC4 : StmtList :=
  .cons (.constDecl "x" "int" (.literal (.int 5)))
    (.cons (.assign "x" (.literal (.int 6))) .nil)

/-- The interpreter state before any statement has run, with no grid. -/
def emptyInterpState : InterpState :=
  ⟨.mk [] none, none, []⟩

/-- The interpreter state interpreter.py main creates: fresh environment
and the default 5 by 5 grid. -/
def gridInterpState : InterpState :=
  ⟨.mk [] none, some (GridWorld.init 5 5), []⟩

/-- The DECLARATION CST the parser produces for the source
const c : bool = sense; — the initializer is a FACTOR holding the SENSE
terminal. -/
def senseDeclCST : CST :=
  innerNode "DECLARATION"
    [termNode "const", termNode "c", termNode ":",
     innerNode "TYPE" [termNode "bool"], termNode "=",
     innerNode "EXPRESSION"
      [innerNode "TERM"
        [innerNode "FACTOR" [termNode "sense"],
         innerNode "TERM_TAIL" []],
       innerNode "EXPRESSION_TAIL" []],
     termNode ";"]

/-- The AST body containing sense as an Identifier inside a constant
declaration initializer. -/
def bodySenseCE : StmtList :=
  .cons (.constDecl "c" "bool" (.ident "sense")) .nil

/-- C7: for every facing in north, east, south, west, turnLeft then
turnRight (and turnRight then turnLeft) restores the original facing;
turnRight steps the facing clockwise through the cycle north, east, south,
west; four applications of either turn are the identity. -/
theorem turn_inverse_cycle (g : GridWorld)
    (hdir : g.agent_direction ∈ GridWorld.DIRECTIONS) :
    g.turn_left.turn_right = g ∧ g.turn_right.turn_left = g ∧
    g.turn_right.agent_direction = clockwiseNext g.agent_direction ∧
    g.turn_right.turn_right.turn_right.turn_right = g ∧
    g.turn_left.turn_left.turn_left.turn_left = g := by
  obtain ⟨w, h, x, y, dir, dirt⟩ := g
  simp only [GridWorld.DIRECTIONS, List.mem_cons, List.not_mem_nil, or_false] at hdir
  rcases hdir with h1 | h1 | h1 | h1 <;> subst h1 <;>
    simp [GridWorld.turn_left, GridWorld.turn_right, GridWorld.DIRECTIONS,
      clockwiseNext]

/-- C7 witness: the inverse and cycle facts evaluated on the default
5 by 5 grid, whose initial facing is north. -/
theorem turn_inverse_cycle_witness :
    (GridWorld.init 5 5).turn_left.turn_right = GridWorld.init 5 5 ∧
    (GridWorld.init 5 5).turn_right.turn_left = GridWorld.init 5 5 ∧
    (GridWorld.init 5 5).turn_right.agent_direction =
      clockwiseNext (GridWorld.init 5 5).agent_direction ∧
    (GridWorld.init 5 5).turn_right.turn_right.turn_right.turn_right =
      GridWorld.init 5 5 ∧
    (GridWorld.init 5 5).turn_left.turn_left.turn_left.turn_left =
      GridWorld.init 5 5 :=
  turn_inverse_cycle (GridWorld.init 5 5) (by decide)

/-- C8: clean is idempotent — cleaning twice without moving equals
cleaning once — and it never changes the agent position, the facing, the
dimensions, or the dirt at any other cell; after cleaning, the agent cell
is dirt-free. -/
theorem clean_idempotent_spec (g : GridWorld) :
    g.clean.clean = g.clean ∧
    g.clean.agent_x = g.agent_x ∧ g.clean.agent_y = g.agent_y ∧
    g.clean.agent_direction = g.agent_direction ∧
    g.clean.width = g.width ∧ g.clean.height = g.height ∧
    (g.agent_x, g.agent_y) ∉ g.clean.dirt ∧
    (∀ c : Int × Int, c ≠ (g.agent_x, g.agent_y) →
      (c ∈ g.clean.dirt ↔ c ∈ g.dirt)) := by
  by_cases hm : (g.agent_x, g.agent_y) ∈ g.dirt
  · refine ⟨?_, ?_, ?_, ?_, ?_, ?_, ?_, ?_⟩
    · simp [GridWorld.clean, hm, Finset.not_mem_erase]
    · simp [GridWorld.clean, hm]
    · simp [GridWorld.clean, hm]
    · simp [GridWorld.clean, hm]
    · simp [GridWorld.clean, hm]
    · simp [GridWorld.clean, hm]
    · simp [GridWorld.clean, hm, Finset.not_mem_erase]
    · intro c hc
      simp [GridWorld.clean, hm, Finset.mem_erase, hc]
  · refine ⟨?_, ?_, ?_, ?_, ?_, ?_, ?_, ?_⟩ <;>
      simp [GridWorld.clean, hm]

/-- C8 witness: idempotence and frame facts evaluated on the default
grid, whose agent cell (0, 0) is initially not dirty, and at a changed
cell after stepping onto dirt. -/
theorem clean_idempotent_spec_witness :
    (GridWorld.init 5 5).clean.clean = (GridWorld.init 5 5).clean ∧
    ((2, 2) ∈ (GridWorld.init 5 5).clean.dirt ↔
      (2, 2) ∈ (GridWorld.init 5 5).dirt) :=
  ⟨(clean_idempotent_spec (GridWorld.init 5 5)).1,
    (clean_idempotent_spec (GridWorld.init 5 5)).2.2.2.2.2.2.2 (2, 2)
      (by decide)⟩

/-- C9: a fresh GridWorld always has the agent at (0, 0) facing north and
the dirt set exactly at the three seeded cells (2, 2), (3, 1), (1, 3),
whatever dimensions were requested; when the width or the height is at
most 3, one of the seeded cells lies outside the grid bounds. -/
theorem init_dirt_seeding (w h : Int) :
    (GridWorld.init w h).agent_x = 0 ∧ (GridWorld.init w h).agent_y = 0 ∧
    (GridWorld.init w h).agent_direction = "north" ∧
    (GridWorld.init w h).width = w ∧ (GridWorld.init w h).height = h ∧
    (GridWorld.init w h).dirt = {(2, 2), (3, 1), (1, 3)} ∧
    (w ≤ 3 → ∃ c ∈ (GridWorld.init w h).dirt,
      ¬(0 ≤ c.1 ∧ c.1 < w ∧ 0 ≤ c.2 ∧ c.2 < h)) ∧
    (h ≤ 3 → ∃ c ∈ (GridWorld.init w h).dirt,
      ¬(0 ≤ c.1 ∧ c.1 < w ∧ 0 ≤ c.2 ∧ c.2 < h)) := by
  refine ⟨rfl, rfl, rfl, rfl, rfl, rfl, ?_, ?_⟩
  · intro hw
    refine ⟨(3, 1), by simp [GridWorld.init], ?_⟩
    rintro ⟨-, h3, -⟩
    omega
  · intro hh
    refine ⟨(1, 3), by simp [GridWorld.init], ?_⟩
    rintro ⟨-, -, -, h3⟩
    omega

/-- C9 witness: the seeding facts evaluated at dimensions 3 and 3, where
both out-of-range conjuncts fire. -/
theorem init_dirt_seeding_witness :
    (GridWorld.init 3 3).dirt = {(2, 2), (3, 1), (1, 3)} ∧
    (∃ c ∈ (GridWorld.init 3 3).dirt,
      ¬(0 ≤ c.1 ∧ c.1 < 3 ∧ 0 ≤ c.2 ∧ c.2 < 3)) :=
  ⟨(init_dirt_seeding 3 3).2.2.2.2.2.1,
    (init_dirt_seeding 3 3).2.2.2.2.2.2.1 (by omega)⟩

/-- C3: move fails with the out-of-bounds RuntimeError exactly when the
cell one step ahead in the facing direction (listed explicitly for the
four facings) leaves the half-open width/height ranges, and on success
the agent lands exactly on that adjacent cell with every other field
unchanged — no clamping and no wraparound.  On failure the Python raise
happens before any mutation, which the embedding renders by returning
only the error. -/
theorem move_bounds_spec (g : GridWorld) :
    (g.agent_direction = "north" → g.nextCell = (g.agent_x, g.agent_y - 1)) ∧
    (g.agent_direction = "south" → g.nextCell = (g.agent_x, g.agent_y + 1)) ∧
    (g.agent_direction = "east" → g.nextCell = (g.agent_x + 1, g.agent_y)) ∧
    (g.agent_direction = "west" → g.nextCell = (g.agent_x - 1, g.agent_y)) ∧
    ((∃ e, g.move = .error e) ↔
      ¬(0 ≤ g.nextCell.1 ∧ g.nextCell.1 < g.width ∧
        0 ≤ g.nextCell.2 ∧ g.nextCell.2 < g.height)) ∧
    (∀ g', g.move = .ok g' →
      g' = { g with agent_x := g.nextCell.1, agent_y := g.nextCell.2 }) := by
  refine ⟨?_, ?_, ?_, ?_, ?_, ?_⟩
  · intro hd; simp [GridWorld.nextCell, hd]
  · intro hd; simp [GridWorld.nextCell, hd]
  · intro hd; simp [GridWorld.nextCell, hd]
  · intro hd; simp [GridWorld.nextCell, hd]
  · by_cases hc : (0 ≤ g.nextCell.1 ∧ g.nextCell.1 < g.width ∧
        0 ≤ g.nextCell.2 ∧ g.nextCell.2 < g.height)
    · simp [GridWorld.move, hc]
    · simp [GridWorld.move, hc]
  · intro g' hg'
    by_cases hc : (0 ≤ g.nextCell.1 ∧ g.nextCell.1 < g.width ∧
        0 ≤ g.nextCell.2 ∧ g.nextCell.2 < g.height)
    · simp [GridWorld.move, hc] at hg'
      exact hg'.symm
    · simp [GridWorld.move, hc] at hg'

/-- C3 witness: on a 1 by 1 grid facing north the step target (0, -1) is
out of bounds, so move returns an error. -/
theorem move_bounds_spec_witness :
    (GridWorld.init 1 1).nextCell = (0, -1) ∧
    (∃ e, (GridWorld.init 1 1).move = .error e) :=
  ⟨(move_bounds_spec (GridWorld.init 1 1)).1 rfl,
    ((move_bounds_spec (GridWorld.init 1 1)).2.2.2.2.1).mpr (by decide)⟩

/-- C5: starting from a fresh grid with positive dimensions, the agent
coordinates stay inside the half-open width/height ranges after any
finite sequence of move, turnLeft, turnRight, clean and sense operations,
where a failing move leaves the grid unchanged. -/
theorem agent_in_bounds_invariant (w h : Int) (hw : 1 ≤ w) (hh : 1 ≤ h)
    (ops : List AgentOp) :
    agentInBounds (runOps (GridWorld.init w h) ops) := by
  have hstep : ∀ g op, agentInBounds g → agentInBounds (applyOp g op) := by
    intro g op hg
    cases op with
    | move =>
      rcases hmv : g.move with e | g2
      · -- error: grid kept unchanged
        simpa [applyOp, hmv] using hg
      · unfold GridWorld.move at hmv
        by_cases hc : (0 ≤ g.nextCell.1 ∧ g.nextCell.1 < g.width ∧
            0 ≤ g.nextCell.2 ∧ g.nextCell.2 < g.height)
        · simp [hc] at hmv
          simp [applyOp, GridWorld.move, hc, ← hmv]
          exact ⟨hc.1, hc.2.1, hc.2.2.1, hc.2.2.2⟩
        · simp [hc] at hmv
    | turnLeft => simpa [applyOp, GridWorld.turn_left] using hg
    | turnRight => simpa [applyOp, GridWorld.turn_right] using hg
    | clean =>
      by_cases hm : (g.agent_x, g.agent_y) ∈ g.dirt <;>
        simpa [applyOp, GridWorld.clean, hm] using hg
    | sense => simpa [applyOp] using hg
  have hfold : ∀ (l : List AgentOp) (g : GridWorld),
      agentInBounds g → agentInBounds (runOps g l) := by
    intro l
    induction l with
    | nil => intro g hg; simpa [runOps] using hg
    | cons op rest ih =>
      intro g hg
      simpa [runOps] using ih (applyOp g op) (hstep g op hg)
  refine hfold ops (GridWorld.init w h) ?_
  simp [agentInBounds, GridWorld.init]
  omega

/-- C5 witness: the invariant evaluated on a 1 by 1 grid after a
sequence containing a failing move, two turns, a clean and a sense. -/
theorem agent_in_bounds_invariant_witness :
    agentInBounds (runOps (GridWorld.init 1 1)
      [.move, .turnRight, .clean, .sense, .turnLeft]) :=
  agent_in_bounds_invariant 1 1 (by omega) (by omega)
    [.move, .turnRight, .clean, .sense, .turnLeft]

/-- C4: for the program declaring const x : int = 5 followed by x = 6,
the converted AST carries program name P, the semantic pass on its body
returns exactly the one E_CONST_ASSIGN diagnostic, and the fail-closed
gate of main refuses to run the interpreter. -/
theorem const_assign_scenario :
    (convert_cst_to_ast cstC4).map (fun p => p.name) = some "P" ∧
    (convert_cst_to_ast cstC4).map (fun p => analyze p.body) =
      some [⟨"E_CONST_ASSIGN", "Cannot reassign constant: x"⟩] ∧
    (convert_cst_to_ast cstC4).map (fun p => semantic_gate_allows_run p.body) =
      some false ∧
    analyze bodyC4 = [⟨"E_CONST_ASSIGN", "Cannot reassign constant: x"⟩] ∧
    semantic_gate_allows_run bodyC4 = false := by
  refine ⟨by decide, by decide, by decide, by decide, by decide⟩

set_option maxHeartbeats 3200000 in
/-- C1: flattening a non-FACTOR node whose tail slot chains an operator
consults only the operator and first operand of that immediate tail — the
result does not depend on the nested tail (trest) holding any further
chained operators, which are silently dropped; concretely, the CST of
1 + 2 + 3 flattens to the binary node 1 + 2 and evaluates to 3, not 6. -/
theorem flatten_drops_chain_tail :
    (∀ (ty oty o0ty tty : String) (v ov tv : Option String)
       (c0 t1 : CST) (o0ch orest trest chrest : CSTList) (op : String),
       ty ≠ "FACTOR" →
       flatten_expression (.node ty v (.cons c0 (.cons
           (.node tty tv (.cons (.node oty ov
             (.cons (.node o0ty (some op) o0ch) orest))
           (.cons t1 trest))) chrest))) =
         .binary op (flatten_expression c0) (flatten_expression t1)) ∧
    flatten_expression cst123 =
      .binary "+" (.literal (.int 1)) (.literal (.int 2)) ∧
    evaluate_expr emptyInterpState (flatten_expression cst123) = .ok (.int 3) := by
  refine ⟨?_, by decide, by decide⟩
  intro ty oty o0ty tty v ov tv c0 t1 o0ch orest trest chrest op hty
  rw [flatten_expression.eq_def]
  split
  all_goals try simp_all
  rename_i hcond heq
  obtain ⟨-, -, -, ⟨-, -, hc, hrest⟩, -⟩ := heq
  exact absurd hrest.symm (hcond _ _ _ _ _ _ _ _ hc.symm)

/-- C1 witness: the tail-dropping equation applied at the concrete
1 + 2 + 3 tree, whose nested tail carries the + 3 that is dropped. -/
theorem flatten_drops_chain_tail_witness :
    flatten_expression (.node "EXPRESSION" none (.cons
        (.node "TERM" none (.cons
          (.node "FACTOR" none (.cons (.node "LITERAL" none
            (.cons (.node "TERMINAL" (some "1") .nil) .nil)) .nil))
          (.cons (.node "TERM_TAIL" none .nil) .nil)))
        (.cons (.node "EXPRESSION_TAIL" none (.cons
          (.node "ADD_OP" none (.cons (.node "TERMINAL" (some "+") .nil) .nil))
          (.cons (.node "TERM" none (.cons
            (.node "FACTOR" none (.cons (.node "LITERAL" none
              (.cons (.node "TERMINAL" (some "2") .nil) .nil)) .nil))
            (.cons (.node "TERM_TAIL" none .nil) .nil)))
          (.cons (.node "EXPRESSION_TAIL" none (.cons
            (.node "ADD_OP" none (.cons (.node "TERMINAL" (some "+") .nil) .nil))
            (.cons (.node "TERM" none (.cons
              (.node "FACTOR" none (.cons (.node "LITERAL" none
                (.cons (.node "TERMINAL" (some "3") .nil) .nil)) .nil))
              (.cons (.node "TERM_TAIL" none .nil) .nil)))
            (.cons (.node "EXPRESSION_TAIL" none .nil) .nil)))) .nil))))
        .nil))) =
      .binary "+"
        (flatten_expression (.node "TERM" none (.cons
          (.node "FACTOR" none (.cons (.node "LITERAL" none
            (.cons (.node "TERMINAL" (some "1") .nil) .nil)) .nil))
          (.cons (.node "TERM_TAIL" none .nil) .nil))))
        (flatten_expression (.node "TERM" none (.cons
          (.node "FACTOR" none (.cons (.node "LITERAL" none
            (.cons (.node "TERMINAL" (some "2") .nil) .nil)) .nil))
          (.cons (.node "TERM_TAIL" none .nil) .nil)))) :=
  flatten_drops_chain_tail.1 "EXPRESSION" "ADD_OP" "TERMINAL" "EXPRESSION_TAIL"
    none none none _ _ .nil .nil _ .nil "+" (by decide)

/-- C6: dividing by an operand that evaluates to zero raises the
division-by-zero RuntimeError; an assignment whose value expression
raises propagates that error without the Environment update running (the
constant check precedes evaluation, Environment.set follows it); a
nonzero divisor yields Python floor division. -/
theorem division_by_zero_spec :
    (∀ (st : InterpState) (l r : Expr) (vl vr : Value),
       evaluate_expr st l = .ok vl → evaluate_expr st r = .ok vr →
       pyEq vr (.int 0) = true →
       evaluate_expr st (.binary "/" l r) =
         .error (.runtimeError "Division by zero")) ∧
    (∀ (st : InterpState) (name : String) (e : Expr) (err : PyErr),
       name ∉ st.const_vars → evaluate_expr st e = .error err →
       execute_stmt (.assign name e) st = .error err) ∧
    (∀ (st : InterpState) (l r : Expr) (a b : Int),
       evaluate_expr st l = .ok (.int a) → evaluate_expr st r = .ok (.int b) →
       b ≠ 0 →
       evaluate_expr st (.binary "/" l r) = .ok (.int (Int.fdiv a b))) := by
  refine ⟨?_, ?_, ?_⟩
  · intro st l r vl vr hl hr hz
    simp [evaluate_expr, hl, hr, hz]
  · intro st name e err hconst he
    rw [execute_stmt]
    simp [execute_assign, hconst, he]
  · intro st l r a b hl hr hb
    simp [evaluate_expr, hl, hr, pyEq, toNum, pyFloorDiv, hb]

/-- C6 witness: 7 / 0 raises, the assignment x = 7 / 0 propagates the
error, and 7 / -2 floor-divides to -4. -/
theorem division_by_zero_spec_witness :
    evaluate_expr emptyInterpState
        (.binary "/" (.literal (.int 7)) (.literal (.int 0))) =
      .error (.runtimeError "Division by zero") ∧
    execute_stmt (.assign "x"
        (.binary "/" (.literal (.int 7)) (.literal (.int 0))))
        emptyInterpState =
      .error (.runtimeError "Division by zero") ∧
    evaluate_expr emptyInterpState
        (.binary "/" (.literal (.int 7)) (.literal (.int (-2)))) =
      .ok (.int (-4)) := by
  have h1 := division_by_zero_spec.1 emptyInterpState
    (.literal (.int 7)) (.literal (.int 0)) (.int 7) (.int 0) rfl rfl (by decide)
  have h2 := division_by_zero_spec.2.1 emptyInterpState "x"
    (.binary "/" (.literal (.int 7)) (.literal (.int 0)))
    (.runtimeError "Division by zero") (by simp [emptyInterpState]) h1
  have h3 := division_by_zero_spec.2.2 emptyInterpState
    (.literal (.int 7)) (.literal (.int (-2))) 7 (-2) rfl rfl (by decide)
  exact ⟨h1, h2, by rw [h3]; decide⟩

/-- Helper for C2: under a test that is truthy from every state, the
capped loop entered with iteration counter 10000 - k behaves as k body
executions followed by the infinite-loop error (or the first body
error). -/
theorem execute_while_always_true_iter (test : Expr) (body : StmtList)
    (htrue : ∀ s, ∃ v, evaluate_expr s test = .ok v ∧ pyTruthy v = true) :
    ∀ (k iteration : Nat) (st : InterpState), iteration + k = 10000 →
    execute_while test body iteration st =
      (match iterBody body k st with
       | .error e => .error e
       | .ok _ =>
         .error (.runtimeError "Infinite loop detected (exceeded 10000 iterations)"))
  | 0, iteration, st, hik => by
    obtain ⟨v, hv, htv⟩ := htrue st
    rw [execute_while]
    have h10 : iteration = 10000 := by omega
    subst h10
    simp [hv, htv, iterBody]
  | k + 1, iteration, st, hik => by
    obtain ⟨v, hv, htv⟩ := htrue st
    rw [execute_while]
    have hlt : ¬(iteration + 1 > 10000) := by omega
    rcases hex : execute_stmts body st with e | st2
    · simp [hv, htv, hlt, hex, iterBody]
    · simp [hv, htv, hlt, hex, iterBody]
      exact execute_while_always_true_iter test body htrue k (iteration + 1) st2
        (by omega)

/-- Helper for C2: when the reference uncapped loop finishes within the
fuel, the capped loop entered with the complementary iteration counter
returns the same result. -/
theorem execute_while_loopFuel (test : Expr) (body : StmtList) :
    ∀ (fuel iteration : Nat) (st : InterpState) (r : Except PyErr InterpState),
    iteration + fuel = 10000 → loopFuel test body fuel st = some r →
    execute_while test body iteration st = r
  | fuel, iteration, st, r, hif, hlf => by
    rw [execute_while]
    cases fuel with
    | zero =>
      rw [loopFuel] at hlf
      rcases hv : evaluate_expr st test with e | v <;> rw [hv] at hlf
      · simp at hlf
        simp [hv, hlf]
      · by_cases htv : pyTruthy v = true
        · simp [htv] at hlf
        · have htv2 : pyTruthy v = false := by simpa using htv
          simp [htv2] at hlf
          simp [hv, htv2, hlf]
    | succ f =>
      rw [loopFuel] at hlf
      rcases hv : evaluate_expr st test with e | v <;> rw [hv] at hlf
      · simp at hlf
        simp [hv, hlf]
      · by_cases htv : pyTruthy v = true
        · simp only [htv, if_true] at hlf
          have hlt : ¬(iteration + 1 > 10000) := by omega
          rcases hex : execute_stmts body st with e | st2 <;> rw [hex] at hlf
          · simp at hlf
            simp [hv, htv, hlt, hex, hlf]
          · simp [hv, htv, hlt, hex]
            exact execute_while_loopFuel test body f (iteration + 1) st2 r
              (by omega) hlf
        · have htv2 : pyTruthy v = false := by simpa using htv
          simp [htv2] at hlf
          simp [hv, htv2, hlf]

/-- C2: a while statement whose test evaluates truthy from every state
runs its body exactly 10000 times (threading all their effects) and then
raises the infinite-loop error at the 10001st iteration check, before any
11th-thousand body run; conversely, whenever the uncapped reference loop
finishes within 10000 body executions, the capped loop returns the very
same final state with no infinite-loop error. -/
theorem while_cap_exact (test : Expr) (body : StmtList) :
    (∀ st : InterpState,
      (∀ s, ∃ v, evaluate_expr s test = .ok v ∧ pyTruthy v = true) →
      execute_stmt (.whileStmt test body) st =
        (match iterBody body 10000 st with
         | .error e => .error e
         | .ok _ =>
           .error (.runtimeError "Infinite loop detected (exceeded 10000 iterations)"))) ∧
    (∀ (st st' : InterpState), loopFuel test body 10000 st = some (.ok st') →
      execute_stmt (.whileStmt test body) st = .ok st') := by
  constructor
  · intro st htrue
    have h := execute_while_always_true_iter test body htrue 10000 0 st (by omega)
    rw [execute_stmt]
    exact h
  · intro st st' hlf
    have h := execute_while_loopFuel test body 10000 0 st (.ok st') (by omega) hlf
    rw [execute_stmt]
    exact h

/-- C2 witness: with the literal-true test and an empty body the
interpreter returns exactly the infinite-loop error after the 10000-fold
(empty) body composition, and with the literal-false test the loop
completes immediately with the state unchanged. -/
theorem while_cap_exact_witness :
    execute_stmt (.whileStmt (.literal (.bool true)) .nil) emptyInterpState =
      (match iterBody .nil 10000 emptyInterpState with
       | .error e => .error e
       | .ok _ =>
         .error (.runtimeError "Infinite loop detected (exceeded 10000 iterations)")) ∧
    execute_stmt (.whileStmt (.literal (.bool false)) .nil) emptyInterpState =
      .ok emptyInterpState :=
  ⟨(while_cap_exact (.literal (.bool true)) .nil).1 emptyInterpState
      (fun _ => ⟨.bool true, rfl, rfl⟩),
   (while_cap_exact (.literal (.bool false)) .nil).2 emptyInterpState
      emptyInterpState (by simp [loopFuel, evaluate_expr, pyTruthy])⟩

/-- C10 counterexample: the body const c : bool = sense — produced by the
converter from the parse tree of that very source line — contains sense as
an Identifier inside an expression, yet the semantic pass returns no
diagnostic at all (the resolution pass skips declaration initializers), the
fail-closed gate lets the program through, and interpretation then does
reach the special runtime handling of sense, binding c to the sense query
result on the default grid. -/
theorem sense_in_initializer_reaches_interpreter :
    stmts_mention_sense bodySenseCE = true ∧
    (convert_declaration senseDeclCST).map (fun s => stmt_mentions_sense s) =
      some true ∧
    (convert_declaration senseDeclCST).map (fun s => analyze (.cons s .nil)) =
      some [] ∧
    analyze bodySenseCE = [] ∧
    semantic_gate_allows_run bodySenseCE = true ∧
    (match execute_stmts bodySenseCE gridInterpState with
     | .ok st => st.env.get "c"
     | .error e => .error e) = .ok (.bool false) := by
  refine ⟨by decide, by decide, by decide, by decide, by decide, ?_⟩
  have hs : (GridWorld.init 5 5).sense = false := by decide
  rw [bodySenseCE, execute_stmts, execute_stmt]
  simp [execute_const_decl, evaluate_expr, gridInterpState, hs,
    Environment.define, updateVar]
  rw [execute_stmts]
  simp [Environment.get, lookupVar]

/-- Helper for C10: declaring a different name preserves what a scope
resolves for x. -/
theorem declare_preserves_resolve (sc : Scope)
    (name category var_type x : String) (hne : name ≠ x) (sc2 : Scope)
    (hdec : sc.declare name category var_type = .ok sc2) :
    sc2.resolve x = sc.resolve x := by
  cases sc with
  | mk names parent =>
    rcases hl : lookupSym names name with _ | s
    · simp [Scope.declare, hl] at hdec
      subst hdec
      simp [Scope.resolve, lookupSym, hne]
    · simp [Scope.declare, hl] at hdec

/-- Helper for C10: the declaration pass never makes a name resolvable
that no declaration of the body registers. -/
theorem declpass_resolve (x : String) :
    ∀ (body : StmtList) (sc : Scope) (errs : List Diag),
    declares_name body x = false → sc.resolve x = none →
    ((declaration_pass body sc errs).1).resolve x = none
  | .nil, _, _, _, hsc => by simpa [declaration_pass] using hsc
  | .cons s rest, sc, errs, hnd, hsc => by
    have hrest : declares_name rest x = false := by
      revert hnd
      simp [declares_name]
      try tauto
    cases s with
    | constDecl name vt val =>
      have hne : name ≠ x := by
        revert hnd
        simp [declares_name, decl_name]
        try tauto
      simp only [declaration_pass]
      rcases hdec : sc.declare name "const" vt with m | sc2
      · simp only [hdec]
        exact declpass_resolve x rest sc _ hrest hsc
      · simp only [hdec]
        exact declpass_resolve x rest sc2 errs hrest
          (by rw [declare_preserves_resolve sc name "const" vt x hne sc2 hdec]
              exact hsc)
    | varDecl name vt init =>
      have hne : name ≠ x := by
        revert hnd
        simp [declares_name, decl_name]
        try tauto
      simp only [declaration_pass]
      rcases hdec : sc.declare name "var" vt with m | sc2
      · simp only [hdec]
        exact declpass_resolve x rest sc _ hrest hsc
      · simp only [hdec]
        exact declpass_resolve x rest sc2 errs hrest
          (by rw [declare_preserves_resolve sc name "var" vt x hne sc2 hdec]
              exact hsc)
    | assign t v =>
      simp only [declaration_pass]
      exact declpass_resolve x rest sc errs hrest hsc
    | ifStmt t c a =>
      simp only [declaration_pass]
      exact declpass_resolve x rest sc errs hrest hsc
    | whileStmt t b =>
      simp only [declaration_pass]
      exact declpass_resolve x rest sc errs hrest hsc
    | actionStmt a =>
      simp only [declaration_pass]
      exact declpass_resolve x rest sc errs hrest hsc

/-- Helper for C10: when sense does not resolve, every expression holding
sense as an Identifier makes resolve_expr emit an E_UNDEFINED. -/
theorem resolve_expr_sense_undefined (sc : Scope)
    (hsc : sc.resolve "sense" = none) :
    ∀ e : Expr, expr_mentions_sense e = true →
    ∃ d ∈ resolve_expr sc e, d.code = "E_UNDEFINED"
  | .ident n, h => by
    have hn : n = "sense" := by simpa [expr_mentions_sense] using h
    subst hn
    refine ⟨⟨"E_UNDEFINED", "Undefined identifier: " ++ "sense"⟩, ?_, rfl⟩
    simp [resolve_expr, hsc]
  | .binary op l r, h => by
    have h2 : expr_mentions_sense l = true ∨ expr_mentions_sense r = true := by
      simpa [expr_mentions_sense] using h
    rcases h2 with h1 | h1
    · obtain ⟨d, hd, hc⟩ := resolve_expr_sense_undefined sc hsc l h1
      exact ⟨d, List.mem_append.mpr (Or.inl hd), hc⟩
    · obtain ⟨d, hd, hc⟩ := resolve_expr_sense_undefined sc hsc r h1
      exact ⟨d, List.mem_append.mpr (Or.inr hd), hc⟩
  | .literal _, h => by simp [expr_mentions_sense] at h
  | .enone, h => by simp [expr_mentions_sense] at h

/-- Helper for C10: when sense does not resolve, every statement list
whose resolution-visited expressions hold sense makes the resolution pass
emit an E_UNDEFINED (strong induction on the tree size). -/
theorem check_statements_sense_bound (sc : Scope)
    (hsc : sc.resolve "sense" = none) :
    ∀ (n : Nat) (l : StmtList), sizeOf l ≤ n → stmts_sense_checked l = true →
    ∃ d ∈ check_statements sc l, d.code = "E_UNDEFINED" := by
  intro n
  induction n with
  | zero =>
    intro l hl h
    cases l with
    | nil => simp [stmts_sense_checked] at h
    | cons s rest => simp at hl
  | succ n ih =>
    intro l hl h
    cases l with
    | nil => simp [stmts_sense_checked] at h
    | cons s rest =>
      simp at hl
      have h2 : stmt_sense_checked s = true ∨ stmts_sense_checked rest = true := by
        simpa [stmts_sense_checked] using h
      rcases h2 with h1 | h1
      · cases s with
        | assign t v =>
          have hv : expr_mentions_sense v = true := by
            simpa [stmt_sense_checked] using h1
          obtain ⟨d, hd, hc⟩ := resolve_expr_sense_undefined sc hsc v hv
          refine ⟨d, ?_, hc⟩
          rw [check_statements.eq_2, check_statement.eq_1]
          exact List.mem_append.mpr (Or.inl (List.mem_append.mpr (Or.inr hd)))
        | ifStmt t c a =>
          simp at hl
          have h3 : expr_mentions_sense t = true ∨ stmts_sense_checked c = true ∨
              stmts_sense_checked a = true := by
            simpa [stmt_sense_checked, or_assoc] using h1
          cases a with
          | nil =>
            rcases h3 with g1 | g1 | g1
            · obtain ⟨d, hd, hc⟩ := resolve_expr_sense_undefined sc hsc t g1
              refine ⟨d, ?_, hc⟩
              rw [check_statements.eq_2, check_statement.eq_3]
              exact List.mem_append.mpr (Or.inl (List.mem_append.mpr
                (Or.inl (List.mem_append.mpr (Or.inl hd)))))
            · obtain ⟨d, hd, hc⟩ := ih c (by omega) g1
              refine ⟨d, ?_, hc⟩
              rw [check_statements.eq_2, check_statement.eq_3]
              exact List.mem_append.mpr (Or.inl (List.mem_append.mpr
                (Or.inl (List.mem_append.mpr (Or.inr hd)))))
            · simp [stmts_sense_checked] at g1
          | cons s2 r2 =>
            simp at hl
            rcases h3 with g1 | g1 | g1
            · obtain ⟨d, hd, hc⟩ := resolve_expr_sense_undefined sc hsc t g1
              refine ⟨d, ?_, hc⟩
              rw [check_statements.eq_2,
                check_statement.eq_4 sc t c (.cons s2 r2) (by simp)]
              exact List.mem_append.mpr (Or.inl (List.mem_append.mpr
                (Or.inl (List.mem_append.mpr (Or.inl hd)))))
            · obtain ⟨d, hd, hc⟩ := ih c (by omega) g1
              refine ⟨d, ?_, hc⟩
              rw [check_statements.eq_2,
                check_statement.eq_4 sc t c (.cons s2 r2) (by simp)]
              exact List.mem_append.mpr (Or.inl (List.mem_append.mpr
                (Or.inl (List.mem_append.mpr (Or.inr hd)))))
            · obtain ⟨d, hd, hc⟩ := ih (.cons s2 r2) (by simp; omega) g1
              refine ⟨d, ?_, hc⟩
              rw [check_statements.eq_2,
                check_statement.eq_4 sc t c (.cons s2 r2) (by simp)]
              exact List.mem_append.mpr (Or.inl (List.mem_append.mpr (Or.inr hd)))
        | whileStmt t b =>
          simp at hl
          have h3 : expr_mentions_sense t = true ∨ stmts_sense_checked b = true := by
            simpa [stmt_sense_checked] using h1
          rcases h3 with g1 | g1
          · obtain ⟨d, hd, hc⟩ := resolve_expr_sense_undefined sc hsc t g1
            refine ⟨d, ?_, hc⟩
            rw [check_statements.eq_2, check_statement.eq_5]
            exact List.mem_append.mpr (Or.inl (List.mem_append.mpr (Or.inl hd)))
          · obtain ⟨d, hd, hc⟩ := ih b (by omega) g1
            refine ⟨d, ?_, hc⟩
            rw [check_statements.eq_2, check_statement.eq_5]
            exact List.mem_append.mpr (Or.inl (List.mem_append.mpr (Or.inr hd)))
        | varDecl nm vt i => simp [stmt_sense_checked] at h1
        | constDecl nm vt v => simp [stmt_sense_checked] at h1
        | actionStmt act => simp [stmt_sense_checked] at h1
      · obtain ⟨d, hd, hc⟩ := ih rest (by omega) h1
        refine ⟨d, ?_, hc⟩
        rw [check_statements.eq_2]
        exact List.mem_append.mpr (Or.inr hd)

/-- List entry point of check_statements_sense_bound. -/
theorem check_statements_sense (sc : Scope) (hsc : sc.resolve "sense" = none)
    (l : StmtList) (h : stmts_sense_checked l = true) :
    ∃ d ∈ check_statements sc l, d.code = "E_UNDEFINED" :=
  check_statements_sense_bound sc hsc (sizeOf l) l (Nat.le_refl _) h

/-- C10 amended: for every AST body that declares no name sense (as no
pipeline AST can, the lexer classifying the word sense as the SENSE
keyword rather than an ID) and that holds sense as an Identifier in some
expression the resolution pass visits — an assignment value or an if or
while test, recursively inside if and while blocks, but not a declaration
initializer — the semantic pass reports at least one E_UNDEFINED and the
fail-closed gate keeps the interpreter from running. -/
theorem sense_resolution_undefined (body : StmtList)
    (hnodecl : declares_name body "sense" = false)
    (hvisited : stmts_sense_checked body = true) :
    (∃ d ∈ analyze body, d.code = "E_UNDEFINED") ∧
    semantic_gate_allows_run body = false ∧
    classify_word "sense" = "SENSE" := by
  have hsc0 : (Scope.mk [] []).resolve "sense" = none := rfl
  have hscope := declpass_resolve "sense" body (.mk [] []) [] hnodecl hsc0
  obtain ⟨d, hd, hc⟩ := check_statements_sense _ hscope body hvisited
  have hmem : d ∈ analyze body := by
    simp only [analyze]
    exact List.mem_append.mpr (Or.inr hd)
  refine ⟨⟨d, hmem, hc⟩, ?_, by decide⟩
  rcases hana : analyze body with _ | ⟨a, l⟩
  · rw [hana] at hmem
    cases hmem
  · simp [semantic_gate_allows_run, hana]

/-- C10 amended witness: a while statement testing sense yields an
E_UNDEFINED and a closed gate. -/
theorem sense_resolution_undefined_witness :
    (∃ d ∈ analyze (.cons (.whileStmt (.ident "sense") .nil) .nil),
      d.code = "E_UNDEFINED") ∧
    semantic_gate_allows_run (.cons (.whileStmt (.ident "sense") .nil) .nil) =
      false ∧
    classify_word "sense" = "SENSE" :=
  sense_resolution_undefined (.cons (.whileStmt (.ident "sense") .nil) .nil)
    (by decide) (by decide)

end CleanWorld
